import Mathlib

/-!
Verification of the `mu_log` logging facade (src/src/mu_log.c, src/inc/mu_log.h).

Shallow embedding notes:
* A C `mu_log_level_t` value at runtime is an `int`; we model runtime level
  values as `Int` and the six defined enumeration constants as the inductive
  `mu_log_level_t` together with `mu_log_level_t.toInt` (TRACE=0 .. FATAL=5,
  as produced by the `MU_LOG_LEVELS` X-macro in mu_log.h).
* The sink function pointer `mu_log_fn` is abstracted by a type parameter σ;
  `log_fn : Option σ` with `none` standing for `NULL`.
* `mu_log` is modelled by the trace of calls it makes to the installed sink.
  The C body is the single statement `s_logger.log_fn(level, message);` with
  no NULL check, so when `log_fn` is `NULL` the call goes through a null
  function pointer and does not return normally; that outcome is `none`.
* The default sink `mu_log_stdout_fn` performs its output through
  `fputs`/`printf`/`vprintf`. Those are modelled by a write oracle
  `w : Nat → String → Int` giving the return value of the i-th underlying
  write call on its payload; the model returns the C return value together
  with the list of payloads actually handed to the output functions.
-/

namespace MuLog

/-- The six log severity levels generated by the `MU_LOG_LEVELS(M)` X-macro
in mu_log.h, in declaration order. -/
inductive mu_log_level_t where
  | MU_LOG_LEVEL_TRACE
  | MU_LOG_LEVEL_DEBUG
  | MU_LOG_LEVEL_INFO
  | MU_LOG_LEVEL_WARN
  | MU_LOG_LEVEL_ERROR
  | MU_LOG_LEVEL_FATAL
deriving DecidableEq

/-- The integer value of each enumeration constant (C enums count from 0). -/
def mu_log_level_t.toInt : mu_log_level_t → Int
  | .MU_LOG_LEVEL_TRACE => 0
  | .MU_LOG_LEVEL_DEBUG => 1
  | .MU_LOG_LEVEL_INFO => 2
  | .MU_LOG_LEVEL_WARN => 3
  | .MU_LOG_LEVEL_ERROR => 4
  | .MU_LOG_LEVEL_FATAL => 5

/-- The display name paired with each level by the `MU_LOG_LEVELS(M)` X-macro. -/
def mu_log_level_t.name : mu_log_level_t → String
  | .MU_LOG_LEVEL_TRACE => "TRACE"
  | .MU_LOG_LEVEL_DEBUG => "DEBUG"
  | .MU_LOG_LEVEL_INFO => "INFO"
  | .MU_LOG_LEVEL_WARN => "WARN"
  | .MU_LOG_LEVEL_ERROR => "ERROR"
  | .MU_LOG_LEVEL_FATAL => "FATAL"

/-- `MU_LOG_DEFAULT_LEVEL` is `MU_LOG_LEVEL_INFO` (mu_log.h). -/
def MU_LOG_DEFAULT_LEVEL : Int := mu_log_level_t.toInt .MU_LOG_LEVEL_INFO

/-- The global logger record `mu_log_t`: a sink function pointer (`none` =
`NULL`) and a threshold, which is stored as a C integer. σ abstracts the
function-pointer type `mu_log_fn`. -/
structure mu_log_t (σ : Type) where
  log_fn : Option σ
  threshold : Int
deriving DecidableEq

/-- The initial value of the private static `s_logger`:
`{ .log_fn = NULL, .threshold = MU_LOG_DEFAULT_LEVEL }`. -/
def s_logger (σ : Type) : mu_log_t σ :=
  { log_fn := none, threshold := MU_LOG_DEFAULT_LEVEL }

/-- `mu_log_set_fn`: assigns `s_logger.log_fn = fn` (state-passing form). -/
def mu_log_set_fn (st : mu_log_t σ) (fn : Option σ) : mu_log_t σ :=
  { st with log_fn := fn }

/-- `mu_log_get_fn`: reads `s_logger.log_fn`. -/
def mu_log_get_fn (st : mu_log_t σ) : Option σ :=
  st.log_fn

/-- `mu_log_set_threshold`: assigns `s_logger.threshold = threshold`. -/
def mu_log_set_threshold (st : mu_log_t σ) (threshold : Int) : mu_log_t σ :=
  { st with threshold := threshold }

/-- `mu_log_get_threshold`: reads `s_logger.threshold`. -/
def mu_log_get_threshold (st : mu_log_t σ) : Int :=
  st.threshold

/-- `mu_log_will_log`: `(s_logger.log_fn != NULL) && (level >= s_logger.threshold)`. -/
def mu_log_will_log (st : mu_log_t σ) (level : Int) : Bool :=
  st.log_fn.isSome && decide (level ≥ st.threshold)

/-- `s_level_names[]`, built by the `EXPAND_LEVEL_NAMES` X-macro. -/
def s_level_names : List String :=
  ["TRACE", "DEBUG", "INFO", "WARN", "ERROR", "FATAL"]

/-- `N_LOG_LEVELS = sizeof(s_level_names)/sizeof(s_level_names[0])` (= 6),
a `size_t` value. -/
def N_LOG_LEVELS : Nat := s_level_names.length

/-- In the C comparison `level < N_LOG_LEVELS` the `int` operand is converted
to `size_t` (64-bit unsigned) by the usual arithmetic conversions: the value
is reduced modulo 2^64 = 18446744073709551616, so a negative `int` becomes a
value near 2^64. -/
def toSizeT (i : Int) : Nat := (i % 18446744073709551616).toNat

/-- `mu_log_level_name`: returns `s_level_names[level]` when
`level < N_LOG_LEVELS` (a `size_t` comparison), else `"UNKNOWN"`. -/
def mu_log_level_name (level : Int) : String :=
  if toSizeT level < N_LOG_LEVELS then
    s_level_names.getD (toSizeT level) "UNKNOWN"
  else
    "UNKNOWN"

/-- `mu_log` (either variant): the body is the single call
`s_logger.log_fn(level, message)` — no NULL check and no threshold test.
The result is the trace of sink calls made: `none` when `log_fn` is `NULL`
(the call through a null function pointer does not return normally),
otherwise the one `(level, message)` delivery. μ abstracts the message
payload: a rendered string in the Simple variant, a format template plus
argument list in the Formatted variant. -/
def mu_log (st : mu_log_t σ) (level : Int) (message : μ) : Option (List (Int × μ)) :=
  match st.log_fn with
  | none => none
  | some _ => some [(level, message)]

/-- Simple-variant `mu_log_stdout_fn` (the `#else` branch): after the
`mu_log_will_log` guard it issues `fputs(mu_log_level_name(level), stdout)`,
`fputs(": ", stdout)`, `fputs(message, stdout)`, `fputs("\n", stdout)`,
storing each return value in the same variable `n`, returning the first
negative `n` immediately and otherwise (after the last write) the current
`n`. `w i s` is the return value of the i-th `fputs` call on payload `s`;
the second component collects the payloads of the `fputs` calls that were
actually made. -/
def mu_log_stdout_fn (st : mu_log_t σ) (w : Nat → String → Int)
    (level : Int) (message : String) : Int × List String :=
  if !(mu_log_will_log st level) then (0, [])
  else
    let s0 := mu_log_level_name level
    let n0 := w 0 s0
    if n0 < 0 then (n0, [s0]) else
    let n1 := w 1 ": "
    if n1 < 0 then (n1, [s0, ": "]) else
    let n2 := w 2 message
    if n2 < 0 then (n2, [s0, ": ", message]) else
    let n3 := w 3 "\n"
    if n3 < 0 then (n3, [s0, ": ", message, "\n"]) else
    (n3, [s0, ": ", message, "\n"])

/-- The output of `printf("%5s: ", mu_log_level_name(level))`: the level name
right-aligned to width 5, then `": "`. -/
def header5 (level : Int) : String :=
  String.mk (List.replicate (5 - (mu_log_level_name level).length) ' ')
    ++ mu_log_level_name level ++ ": "

/-- Formatted-variant `mu_log_stdout_fn` (the `MU_LOG_ENABLE_FORMATTED`
branch): after the `mu_log_will_log` guard it issues three writes —
`n1 = printf("%5s: ", name)`, `n2 = vprintf(format, ap)`, `n3 = printf("\n")`
— returning the first negative value immediately and otherwise `n1+n2+n3`.
The string `rendered` abstracts the output that `vprintf` renders from the
format template and its argument list. -/
def mu_log_stdout_fn_fmt (st : mu_log_t σ) (w : Nat → String → Int)
    (level : Int) (rendered : String) : Int × List String :=
  if !(mu_log_will_log st level) then (0, [])
  else
    let n1 := w 0 (header5 level)
    if n1 < 0 then (n1, [header5 level]) else
    let n2 := w 1 rendered
    if n2 < 0 then (n2, [header5 level, rendered]) else
    let n3 := w 2 "\n"
    if n3 < 0 then (n3, [header5 level, rendered, "\n"]) else
    (n1 + n2 + n3, [header5 level, rendered, "\n"])

/-- The two operations that mutate the logger state (mu_log.c exposes no
other writer of `s_logger`). -/
inductive LoggerOp (σ : Type) where
  | set_fn (fn : Option σ)
  | set_threshold (t : Int)

/-- Apply one mutating operation to the logger state. -/
def applyOp (st : mu_log_t σ) : LoggerOp σ → mu_log_t σ
  | .set_fn fn => mu_log_set_fn st fn
  | .set_threshold t => mu_log_set_threshold st t

/-- Apply a sequence of mutating operations, oldest first. -/
def applyOps (st : mu_log_t σ) : List (LoggerOp σ) → mu_log_t σ
  | [] => st
  | op :: ops => applyOps (applyOp st op) ops

/-- Claim C2: with a sink installed, `mu_log` hands `(level, message)` to the
sink exactly once — the trace is the singleton `[(level, message)]` — for
every threshold value `t`, and the definition makes no threshold comparison:
the trace is the same for all thresholds. -/
theorem mu_log_forwards_unconditionally (σ μ : Type) (s : σ) (t : Int)
    (level : Int) (message : μ) :
    mu_log (⟨some s, t⟩ : mu_log_t σ) level message = some [(level, message)] :=
  rfl

/-- Claim C1: with no sink installed (`log_fn = NULL`, as in the initial
state `s_logger`), `mu_log(FATAL, "x")` does NOT return as a silent no-op:
the C body calls `s_logger.log_fn(level, message)` without any NULL check,
so it calls through a null function pointer (modelled as `none`). -/
theorem mu_log_no_sink_null_deref :
    mu_log (s_logger Unit) (mu_log_level_t.toInt .MU_LOG_LEVEL_FATAL)
      ("x" : String) = none :=
  rfl

/-- Claim C4: `mu_log_will_log level` is true iff a sink is installed and
`level ≥ threshold`; it is false whenever `log_fn` is `NULL`, for every
`level` and every `threshold`; and the enumeration ordering used is
TRACE < DEBUG < INFO < WARN < ERROR < FATAL (values 0..5 in order). -/
theorem mu_log_will_log_spec (σ : Type) (st : mu_log_t σ) (L t : Int) :
    (mu_log_will_log st L = true ↔ st.log_fn.isSome = true ∧ st.threshold ≤ L) ∧
    (mu_log_will_log (⟨none, t⟩ : mu_log_t σ) L = false) ∧
    (mu_log_level_t.toInt .MU_LOG_LEVEL_TRACE < mu_log_level_t.toInt .MU_LOG_LEVEL_DEBUG ∧
     mu_log_level_t.toInt .MU_LOG_LEVEL_DEBUG < mu_log_level_t.toInt .MU_LOG_LEVEL_INFO ∧
     mu_log_level_t.toInt .MU_LOG_LEVEL_INFO < mu_log_level_t.toInt .MU_LOG_LEVEL_WARN ∧
     mu_log_level_t.toInt .MU_LOG_LEVEL_WARN < mu_log_level_t.toInt .MU_LOG_LEVEL_ERROR ∧
     mu_log_level_t.toInt .MU_LOG_LEVEL_ERROR < mu_log_level_t.toInt .MU_LOG_LEVEL_FATAL) := by
  refine ⟨?_, ?_, by decide⟩
  · simp [mu_log_will_log, ge_iff_le]
  · simp [mu_log_will_log]

/-- Concrete check of claim C4: with a sink installed and threshold INFO,
`mu_log_will_log WARN` is true. -/
theorem mu_log_will_log_spec_witness :
    mu_log_will_log (⟨some (), 2⟩ : mu_log_t Unit) 3 = true :=
  ((mu_log_will_log_spec Unit ⟨some (), 2⟩ 3 0).1).mpr ⟨rfl, by decide⟩

/-- Claim C5: over the C `int` range, `mu_log_level_name` returns the fixed
display name on each of the six defined levels, and `"UNKNOWN"` on every
other value — negative values included, because the comparison against
`N_LOG_LEVELS` converts the `int` to `size_t`. It is a total function, so it
never fails. -/
theorem mu_log_level_name_spec (v : Int)
    (h1 : -2147483648 ≤ v) (h2 : v < 2147483648) :
    (∀ ℓ : mu_log_level_t, mu_log_level_name ℓ.toInt = ℓ.name) ∧
    ((∀ ℓ : mu_log_level_t, v ≠ ℓ.toInt) → mu_log_level_name v = "UNKNOWN") := by
  constructor
  · intro ℓ; cases ℓ <;> rfl
  · intro hne
    have hv : v < 0 ∨ 6 ≤ v := by
      rcases lt_or_ge v 0 with h | h
      · exact Or.inl h
      rcases lt_or_ge v 6 with h6 | h6
      · exfalso
        interval_cases v
        · exact hne .MU_LOG_LEVEL_TRACE rfl
        · exact hne .MU_LOG_LEVEL_DEBUG rfl
        · exact hne .MU_LOG_LEVEL_INFO rfl
        · exact hne .MU_LOG_LEVEL_WARN rfl
        · exact hne .MU_LOG_LEVEL_ERROR rfl
        · exact hne .MU_LOG_LEVEL_FATAL rfl
      · exact Or.inr h6
    have hbig : ¬ (toSizeT v < N_LOG_LEVELS) := by
      show ¬ ((v % 18446744073709551616).toNat < 6)
      omega
    simp [mu_log_level_name, hbig]

/-- Concrete check of claim C5: `mu_log_level_name (-1) = "UNKNOWN"`. -/
theorem mu_log_level_name_spec_witness :
    mu_log_level_name (-1) = "UNKNOWN" :=
  (mu_log_level_name_spec (-1) (by decide) (by decide)).2
    (by intro ℓ; cases ℓ <;> decide)

/-- Claim C3: in Simple mode, with a sink installed, threshold = INFO and
every `fputs` succeeding with its character count (4, 2, 13, 1),
`mu_log_stdout_fn INFO "Hello, world!"` does perform exactly the four writes
`"INFO"`, `": "`, `"Hello, world!"`, `"\n"` in order — but it returns 1,
the result of the final `fputs("\n")` (the C code reuses one variable `n`),
not the sum 4 + 2 + 13 + 1 = 20 of characters written that the claim and
the header's `@return` documentation state. -/
theorem mu_log_stdout_fn_returns_last_write :
    mu_log_stdout_fn (⟨some (), 2⟩ : mu_log_t Unit)
        (fun _ s => (s.length : Int)) 2 "Hello, world!"
      = (1, ["INFO", ": ", "Hello, world!", "\n"]) ∧
    (1 : Int) ≠ 4 + 2 + 13 + 1 :=
  ⟨rfl, by decide⟩

/-- Claim C6: in both variants of `mu_log_stdout_fn`, when an underlying
write returns a negative value and every earlier write succeeded, the sink
returns that first negative value and makes none of the remaining write
calls (the trace stops at the failing write). -/
theorem mu_log_stdout_fn_short_circuits (σ : Type) (st : mu_log_t σ)
    (w : Nat → String → Int) (level : Int) (message rendered : String)
    (hwl : mu_log_will_log st level = true) :
    (w 0 (mu_log_level_name level) < 0 →
      mu_log_stdout_fn st w level message
        = (w 0 (mu_log_level_name level), [mu_log_level_name level])) ∧
    (0 ≤ w 0 (mu_log_level_name level) → w 1 ": " < 0 →
      mu_log_stdout_fn st w level message
        = (w 1 ": ", [mu_log_level_name level, ": "])) ∧
    (0 ≤ w 0 (mu_log_level_name level) → 0 ≤ w 1 ": " → w 2 message < 0 →
      mu_log_stdout_fn st w level message
        = (w 2 message, [mu_log_level_name level, ": ", message])) ∧
    (0 ≤ w 0 (mu_log_level_name level) → 0 ≤ w 1 ": " → 0 ≤ w 2 message →
      w 3 "\n" < 0 →
      mu_log_stdout_fn st w level message
        = (w 3 "\n", [mu_log_level_name level, ": ", message, "\n"])) ∧
    (w 0 (header5 level) < 0 →
      mu_log_stdout_fn_fmt st w level rendered
        = (w 0 (header5 level), [header5 level])) ∧
    (0 ≤ w 0 (header5 level) → w 1 rendered < 0 →
      mu_log_stdout_fn_fmt st w level rendered
        = (w 1 rendered, [header5 level, rendered])) ∧
    (0 ≤ w 0 (header5 level) → 0 ≤ w 1 rendered → w 2 "\n" < 0 →
      mu_log_stdout_fn_fmt st w level rendered
        = (w 2 "\n", [header5 level, rendered, "\n"])) := by
  refine ⟨fun ha => ?_, fun ha hb => ?_, fun ha hb hc => ?_,
    fun ha hb hc hd => ?_, fun ha => ?_, fun ha hb => ?_, fun ha hb hc => ?_⟩ <;>
    simp_all [mu_log_stdout_fn, mu_log_stdout_fn_fmt, not_lt_of_ge, le_of_lt]

/-- Concrete check of claim C6: first write fails with -3, result is
`(-3, ["INFO"])` — no further writes. -/
theorem mu_log_stdout_fn_short_circuits_witness :
    mu_log_stdout_fn (⟨some (), 2⟩ : mu_log_t Unit)
        (fun i _ => if i = 0 then (-3 : Int) else 1) 2 "m"
      = (-3, ["INFO"]) := by
  have h := (mu_log_stdout_fn_short_circuits Unit ⟨some (), 2⟩
      (fun i _ => if i = 0 then (-3 : Int) else 1) 2 "m" "r" (by decide)).1
    (by decide)
  simpa using h

/-- Claim C7: when `mu_log_will_log level` is false (no sink installed, or
`level` below threshold), both variants of `mu_log_stdout_fn` make no write
calls at all and return 0. -/
theorem mu_log_stdout_fn_below_threshold (σ : Type) (st : mu_log_t σ)
    (w : Nat → String → Int) (level : Int) (message rendered : String)
    (hwl : mu_log_will_log st level = false) :
    mu_log_stdout_fn st w level message = (0, []) ∧
    mu_log_stdout_fn_fmt st w level rendered = (0, []) := by
  constructor <;> simp [mu_log_stdout_fn, mu_log_stdout_fn_fmt, hwl]

/-- Concrete check of claim C7: `mu_log_stdout_fn DEBUG "Hello"` with a sink
installed and threshold INFO performs zero writes and returns 0. -/
theorem mu_log_stdout_fn_below_threshold_witness :
    mu_log_stdout_fn (⟨some (), 2⟩ : mu_log_t Unit)
        (fun _ s => (s.length : Int)) 1 "Hello"
      = (0, []) :=
  (mu_log_stdout_fn_below_threshold Unit ⟨some (), 2⟩
    (fun _ s => (s.length : Int)) 1 "Hello" "r" (by decide)).1

/-- Helper for claim C8: applying any sequence of mutating operations whose
`set_threshold` arguments are defined levels keeps the threshold a defined
level. -/
theorem applyOps_threshold_defined (σ : Type) (ops : List (LoggerOp σ)) :
    ∀ st : mu_log_t σ,
      (∃ ℓ : mu_log_level_t, st.threshold = ℓ.toInt) →
      (∀ op ∈ ops, ∀ t, op = LoggerOp.set_threshold t →
        ∃ ℓ : mu_log_level_t, t = ℓ.toInt) →
      ∃ ℓ : mu_log_level_t, (applyOps st ops).threshold = ℓ.toInt := by
  induction ops with
  | nil => intro st hst _; exact hst
  | cons op rest ih =>
      intro st hst h
      apply ih
      · cases op with
        | set_fn fn =>
            simpa [applyOp, mu_log_set_fn] using hst
        | set_threshold t =>
            have ht := h _ (List.mem_cons_self _ _) t rfl
            simpa [applyOp, mu_log_set_threshold] using ht
      · intro op2 hop2 t het
        exact h op2 (List.mem_cons_of_mem _ hop2) t het

/-- Claim C8: the logger state starts with `log_fn = NULL` and
`threshold = MU_LOG_LEVEL_INFO`; the only mutating operations are `set_fn`
and `set_threshold` (the type `LoggerOp`), and if every `set_threshold` in a
sequence of operations is called with one of the six defined levels, the
threshold after the whole sequence is still one of the six defined levels. -/
theorem s_logger_threshold_invariant (σ : Type) (ops : List (LoggerOp σ))
    (h : ∀ op ∈ ops, ∀ t, op = LoggerOp.set_threshold t →
      ∃ ℓ : mu_log_level_t, t = ℓ.toInt) :
    (s_logger σ).log_fn = none ∧
    (s_logger σ).threshold = mu_log_level_t.toInt .MU_LOG_LEVEL_INFO ∧
    ∃ ℓ : mu_log_level_t, (applyOps (s_logger σ) ops).threshold = ℓ.toInt := by
  refine ⟨rfl, rfl, ?_⟩
  exact applyOps_threshold_defined σ ops (s_logger σ)
    ⟨.MU_LOG_LEVEL_INFO, rfl⟩ h

/-- Concrete check of claim C8: after `set_threshold ERROR` then installing a
sink, the threshold is still a defined level. -/
theorem s_logger_threshold_invariant_witness :
    (s_logger Unit).log_fn = none ∧
    (s_logger Unit).threshold = mu_log_level_t.toInt .MU_LOG_LEVEL_INFO ∧
    ∃ ℓ : mu_log_level_t,
      (applyOps (s_logger Unit)
        [LoggerOp.set_threshold 4, LoggerOp.set_fn (some ())]).threshold
        = ℓ.toInt := by
  apply s_logger_threshold_invariant Unit
    [LoggerOp.set_threshold 4, LoggerOp.set_fn (some ())]
  intro op hop t het
  simp only [List.mem_cons, List.not_mem_nil, or_false] at hop
  rcases hop with rfl | rfl
  · injection het with h
    exact ⟨.MU_LOG_LEVEL_ERROR, h.symm⟩
  · exact LoggerOp.noConfusion het

/-- Claim C9: after `mu_log_set_threshold T`, `mu_log_get_threshold` returns
exactly `T`, from any prior logger state. -/
theorem set_threshold_get_threshold_roundtrip (σ : Type) (st : mu_log_t σ)
    (T : Int) :
    mu_log_get_threshold (mu_log_set_threshold st T) = T :=
  rfl

/-- Claim C10: `mu_log_set_fn` writes only the `log_fn` field (threshold
unchanged, also when installing `NULL`), and `mu_log_set_threshold` writes
only the `threshold` field (installed sink unchanged), from every state. -/
theorem setters_frame (σ : Type) (st : mu_log_t σ) (fn : Option σ) (t : Int) :
    (mu_log_set_fn st fn).threshold = st.threshold ∧
    (mu_log_set_fn st fn).log_fn = fn ∧
    (mu_log_set_fn st none).threshold = st.threshold ∧
    (mu_log_set_threshold st t).log_fn = st.log_fn ∧
    (mu_log_set_threshold st t).threshold = t :=
  ⟨rfl, rfl, rfl, rfl, rfl⟩

end MuLog
